import Mathlib

/-!
Verification of the proximity-based column relevance and object-relationship
scoring engine of the acacia-db repository.

The Python sources are shallowly embedded:
`src/Python/src/scripts/analyze_object_relationship_columns.py` (proximity scoring),
`src/Python/src/scripts/analyze_top_columns.py` (weighted mention counting and ranking),
`src/Python/src/scripts/analyze_object_relations.py` (column overlap and relationship
strength), and `src/Python/src/scripts/msdyn/analyze_top_columns.py` (AL mention
extraction).  Python strings are modelled as Lean `String`s (lists of characters),
Python `float` arithmetic as exact real/rational arithmetic, regular-expression
word-boundary matching as an explicit position-based matcher, and the external
Solr collaborator as an explicit request-outcome parameter.
-/

/-! ## Word-boundary occurrence matching

Models `re.finditer(r'\b' + re.escape(tok) + r'\b', text)` for a token consisting
of word characters (all identifiers handled by the scripts are `[A-Z0-9_]+`):
a match at position `p` requires the token's characters at `p`, no word character
immediately before `p`, and no word character immediately after the match.
-/

/-- Word character as in the regex `\b` boundary semantics: `[A-Za-z0-9_]`. -/
def isWordChar (c : Char) : Bool :=
  c.isAlphanum || c == '_'

/-- Sublist of `text` starting at `p` with length `len`. -/
def subAt (text : List Char) (p len : Nat) : List Char :=
  (text.drop p).take len

/-- The token `w` matches at position `p` of `text` with word boundaries on both sides. -/
def wordBoundedAt (w text : List Char) (p : Nat) : Bool :=
  subAt text p w.length == w
    && (p == 0 || !isWordChar (text.getD (p - 1) ' '))
    && (text.length ≤ p + w.length || !isWordChar (text.getD (p + w.length) ' '))

/-- All word-boundary match positions of `w` in `text`, in increasing order.
For word-character tokens two matches can never overlap, so the number of
positions equals the number of non-overlapping regex matches. -/
def wordOcc (w text : List Char) : List Nat :=
  (List.range text.length).filter (wordBoundedAt w text)

/-- Python `str.upper()` (the texts handled are ASCII). -/
def upperS (s : String) : String :=
  ⟨s.data.map Char.toUpper⟩

/-- Word-boundary match positions on `String`s. -/
def wordOccS (w text : String) : List Nat :=
  wordOcc w.data text.data

/-- Number of word-boundary matches of `w` in `text`
(`len(re.findall(r'\b'+w+r'\b', text))`). -/
def wordOccCountS (w text : String) : Nat :=
  (wordOccS w text).length

/-- Left-to-right non-overlapping substring scan with explicit fuel
(one unit of fuel per character examined). -/
def countSubAux (pat : List Char) : Nat → List Char → Nat
  | 0, _ => 0
  | _ + 1, [] => 0
  | fuel + 1, c :: rest =>
    if pat.isPrefixOf (c :: rest) then
      1 + countSubAux pat fuel (rest.drop (pat.length - 1))
    else
      countSubAux pat fuel rest

/-- Number of non-overlapping occurrences of the literal pattern `pat` in `text`,
scanning left to right: models `len(re.findall(re.escape(pat), text))` for a
non-empty literal pattern. -/
def countSub (pat text : List Char) : Nat :=
  countSubAux pat text.length text

/-- Minimum absolute difference over all pairs drawn from the two position lists;
`none` when either list is empty.  Models the nested `min_distance` loops of
`calculate_column_proximity_in_relationship`. -/
def minPairDist (as bs : List Nat) : Option Nat :=
  ((as.map (fun a => bs.map (fun b => ((a : Int) - (b : Int)).natAbs))).flatten).min?

/-! ## Text windows (Solr documents)

One Solr document as consumed by the analysis scripts: a matched line with its
before/after context lines (`fl='id,object_name,line_text,context_before,context_after'`).
-/

/-- One text window returned by the Solr collaborator. -/
structure SolrDoc where
  context_before : List String
  line_text : String
  context_after : List String
deriving DecidableEq

/-- `' '.join(doc.get('context_before', []))`. -/
def beforeText (d : SolrDoc) : String :=
  String.intercalate " " d.context_before

/-- `' '.join(doc.get('context_after', []))`. -/
def afterText (d : SolrDoc) : String :=
  String.intercalate " " d.context_after

/-- The concatenated buffer `all_text` built by
`calculate_column_proximity_in_relationship` (non-empty segments joined, each of
the first two followed by a single space).  The `field_positions` ranges computed
alongside it in the source are never read by the scoring code and are omitted. -/
def docAllText (d : SolrDoc) : String :=
  let t1 := if beforeText d ≠ "" then beforeText d ++ " " else ""
  let t2 := if d.line_text ≠ "" then t1 ++ d.line_text ++ " " else t1
  if afterText d ≠ "" then t2 ++ afterText d else t2

/-! ## Proximity scoring
(`calculate_column_proximity_in_relationship` in
`analyze_object_relationship_columns.py`, lines 139-250)
-/

/-- The per-column accumulator created by the `column_scores` defaultdict.
Python's `min_distance` starts at `float('inf')` and is cleaned up to `None`
at the end of the analysis; both states are modelled as `none`. -/
structure ColumnData where
  total_weighted_score : ℝ
  total_mentions : ℕ
  context_before_score : ℝ
  line_text_score : ℝ
  context_after_score : ℝ
  best_proximity : ℝ
  min_distance : Option ℕ
  documents_found_in : ℕ

/-- The zero-initialised accumulator entry. -/
noncomputable def initColumnData : ColumnData :=
  ⟨0, 0, 0, 0, 0, 0, none, 0⟩

/-- `proximity_score = math.exp(-min_distance / 100.0)`. -/
noncomputable def proximityScore (min_distance : ℕ) : ℝ :=
  Real.exp (-(min_distance : ℝ) / 100)

/-- Number of word-boundary matches of `column` in one zone's own text,
recomputed on `text.upper()` (`field_column_matches` in the source). -/
def zoneCount (column text : String) : ℕ :=
  wordOccCountS column (upperS text)

/-- One iteration of the document/column double loop of
`calculate_column_proximity_in_relationship`: the update applied to the
accumulator of `column` by one document, with anchor `target`.
Zone weights are `context_before = 1`, `line_text = 3`, `context_after = 3`. -/
noncomputable def columnDocUpdate (target column : String) (doc : SolrDoc)
    (cd : ColumnData) : ColumnData :=
  if docAllText doc = "" then cd else
  let objM := wordOccS target (upperS (docAllText doc))
  if objM = [] then cd else
  let colM := wordOccS column (upperS (docAllText doc))
  if colM = [] then cd else
  match minPairDist objM colM with
  | none => cd
  | some md =>
    let prox := proximityScore md
    let cd1 : ColumnData :=
      { cd with
        best_proximity := max cd.best_proximity prox
        min_distance := some (match cd.min_distance with
          | none => md
          | some v => min v md)
        documents_found_in := cd.documents_found_in + 1 }
    let kb := zoneCount column (beforeText doc)
    let cd2 : ColumnData :=
      if beforeText doc ≠ "" ∧ 0 < kb then
        { cd1 with
          total_weighted_score := cd1.total_weighted_score + prox * kb * 1
          total_mentions := cd1.total_mentions + kb
          context_before_score := cd1.context_before_score + prox * kb * 1 }
      else cd1
    let kl := zoneCount column doc.line_text
    let cd3 : ColumnData :=
      if doc.line_text ≠ "" ∧ 0 < kl then
        { cd2 with
          total_weighted_score := cd2.total_weighted_score + prox * kl * 3
          total_mentions := cd2.total_mentions + kl
          line_text_score := cd2.line_text_score + prox * kl * 3 }
      else cd2
    let ka := zoneCount column (afterText doc)
    if afterText doc ≠ "" ∧ 0 < ka then
      { cd3 with
        total_weighted_score := cd3.total_weighted_score + prox * ka * 3
        total_mentions := cd3.total_mentions + ka
        context_after_score := cd3.context_after_score + prox * ka * 3 }
    else cd3

/-! ## Weighted mention counting and ranking
(`TopColumnsAnalyzer` in `analyze_top_columns.py`)
-/

/-- Association-list lookup (Python `dict` access / `in` test). -/
def lookupAssoc {α : Type} : List (String × α) → String → Option α
  | [], _ => none
  | (k, v) :: rest, key => if k = key then some v else lookupAssoc rest key

/-- Update under a key with defaultdict semantics: a missing key is first
created from `dflt`.  A fresh key is appended at the end, matching Python's
dict insertion order. -/
def updateAssoc {α : Type} (l : List (String × α)) (key : String) (dflt : α)
    (f : α → α) : List (String × α) :=
  match l with
  | [] => [(key, f dflt)]
  | (k, v) :: rest =>
    if k = key then (k, f v) :: rest else (k, v) :: updateAssoc rest key dflt f

/-- `extract_column_mentions(text, columns)` of `analyze_top_columns.py`:
word-boundary counts per column on `text.upper()`, keeping only positive counts. -/
def extract_column_mentions (text : String) (columns : List String) :
    List (String × ℕ) :=
  if text = "" ∨ columns = [] then []
  else columns.filterMap (fun column =>
    let k := wordOccCountS column (upperS text)
    if 0 < k then some (column, k) else none)

/-- `mentions.get(column, 0)`. -/
def mentionsGet (m : List (String × ℕ)) (column : String) : ℕ :=
  (lookupAssoc m column).getD 0

/-- The `mention_details` record per column. -/
structure MentionDetail where
  context_before : ℕ
  line_text : ℕ
  context_after : ℕ
  total_weighted : ℕ
deriving DecidableEq

/-- The two accumulator dicts of `analyze_object_columns`. -/
structure Accum where
  weighted_scores : List (String × ℕ)
  mention_details : List (String × MentionDetail)
deriving DecidableEq

/-- The body of the document loop of `analyze_object_columns`:
per-zone counts, weights `context_before = 3`, `line_text = 3`,
`context_after = 1`, accumulated only when the weighted score is positive. -/
def processDoc (columns : List String) (acc : Accum) (doc : SolrDoc) : Accum :=
  let before_mentions := extract_column_mentions (beforeText doc) columns
  let line_mentions := extract_column_mentions doc.line_text columns
  let after_mentions := extract_column_mentions (afterText doc) columns
  columns.foldl (fun acc column =>
    let before_count := mentionsGet before_mentions column
    let line_count := mentionsGet line_mentions column
    let after_count := mentionsGet after_mentions column
    let weighted_score := before_count * 3 + line_count * 3 + after_count * 1
    if 0 < weighted_score then
      { weighted_scores :=
          updateAssoc acc.weighted_scores column 0 (· + weighted_score)
        mention_details :=
          updateAssoc acc.mention_details column ⟨0, 0, 0, 0⟩ (fun d =>
            ⟨d.context_before + before_count, d.line_text + line_count,
             d.context_after + after_count, d.total_weighted + weighted_score⟩) }
    else acc) acc

/-- Accumulation over all documents. -/
def computeAccum (columns : List String) (docs : List SolrDoc) : Accum :=
  docs.foldl (processDoc columns) ⟨[], []⟩

/-- Insert into a list already sorted by descending score, after every
entry of greater-or-equal score: the insertion step of a stable descending
sort (CPython's `sorted(..., key=lambda x: x[1], reverse=True)` is stable). -/
def insertDesc (x : String × ℕ) : List (String × ℕ) → List (String × ℕ)
  | [] => [x]
  | y :: ys => if x.2 ≤ y.2 then y :: insertDesc x ys else x :: y :: ys

/-- Stable sort by descending score. -/
def sortByScoreDesc (l : List (String × ℕ)) : List (String × ℕ) :=
  l.foldl (fun acc x => insertDesc x acc) []

/-- One entry of the `top_3_columns` output list. -/
structure TopColumnEntry where
  rank : ℕ
  column_name : String
  weighted_score : ℕ
  context_before_mentions : ℕ
  line_text_mentions : ℕ
  context_after_mentions : ℕ
  total_raw_mentions : ℕ
deriving DecidableEq

/-- `enumerate(top_columns, 1)` turned into report entries, reading the
per-zone counts back from `mention_details`. -/
def buildEntries (details : List (String × MentionDetail)) :
    ℕ → List (String × ℕ) → List TopColumnEntry
  | _, [] => []
  | rank, (column, score) :: rest =>
    let d := (lookupAssoc details column).getD ⟨0, 0, 0, 0⟩
    { rank := rank
      column_name := column
      weighted_score := score
      context_before_mentions := d.context_before
      line_text_mentions := d.line_text
      context_after_mentions := d.context_after
      total_raw_mentions := d.context_before + d.line_text + d.context_after } ::
      buildEntries details (rank + 1) rest

/-- Lines 120-180 of `analyze_object_columns`: accumulate over all documents,
sort by weighted score descending (sole sort key) and keep the top 3. -/
def computeTopColumns (columns : List String) (docs : List SolrDoc) :
    List TopColumnEntry :=
  let acc := computeAccum columns docs
  buildEntries acc.mention_details 1 ((sortByScoreDesc acc.weighted_scores).take 3)

/-- The per-object analysis result dict: either `{'error': msg}` or the report. -/
structure TopColumnsResult where
  object_name : String
  total_columns : ℕ
  documents_analyzed : ℕ
  columns_with_mentions : ℕ
  top_3_columns : List TopColumnEntry
deriving DecidableEq

/-- Outcome of `analyze_object_columns`. -/
inductive AnalyzeOutcome where
  | error (msg : String)
  | ok (r : TopColumnsResult)
deriving DecidableEq

/-- `analyze_object_columns(object_name)` of `analyze_top_columns.py`.
The loaded metadata dict and the Solr document fetch
(`search_object_documents`) are explicit parameters. -/
def analyze_object_columns (object_columns : List (String × List String))
    (fetch : String → List SolrDoc) (object_name : String) : AnalyzeOutcome :=
  match lookupAssoc object_columns object_name with
  | none => .error ("Object " ++ object_name ++ " not found in metadata")
  | some columns =>
    let documents := fetch object_name
    if documents = [] then
      .error ("No documents found for " ++ object_name ++ " in Solr")
    else
      .ok { object_name := object_name
            total_columns := columns.length
            documents_analyzed := documents.length
            columns_with_mentions := (computeAccum columns documents).weighted_scores.length
            top_3_columns := computeTopColumns columns documents }

/-! ## Column overlap and relationship strength
(`ObjectRelationAnalyzer` in `analyze_object_relations.py`)
-/

/-- Python `round(x, 3)` modelled over exact rationals (round-half-up; the
conventions differ only on exact `0.0005` ties, which none of the verified
statements depend on). -/
def round3 (q : ℚ) : ℚ :=
  (round (q * 1000) : ℤ) / 1000

/-- Result dict of `find_column_matches`.  The source returns
`list(cols1.intersection(cols2))`, whose element order is unspecified
(Python set iteration); the set itself is what the scores consume. -/
structure ColumnMatchResult where
  object1_columns : ℕ
  object2_columns : ℕ
  exact_matches : Finset String
  match_score : ℚ
deriving DecidableEq

/-- `find_column_matches(object1, object2)`: exact string intersection of the
two column sets, `match_score = round(2*|matches| / (|cols1|+|cols2|), 3)`,
with an early `0.0` return when either column set is empty. -/
def find_column_matches (object_columns : List (String × List String))
    (object1 object2 : String) : ColumnMatchResult :=
  let cols1 := ((lookupAssoc object_columns object1).getD []).toFinset
  let cols2 := ((lookupAssoc object_columns object2).getD []).toFinset
  if cols1 = ∅ ∨ cols2 = ∅ then
    ⟨cols1.card, cols2.card, ∅, 0⟩
  else
    let exact_matches := cols1 ∩ cols2
    let total_columns := cols1.card + cols2.card
    let match_score : ℚ :=
      if 0 < total_columns then (exact_matches.card * 2 : ℚ) / total_columns else 0
    ⟨cols1.card, cols2.card, exact_matches, round3 match_score⟩

/-- Result dict of `_calculate_relationship_strength` (components as returned,
rounded to 3 decimals like the source's report fields). -/
structure RelationshipStrength where
  overall_score : ℚ
  level : String
  cooccurrence_score : ℚ
  column_score : ℚ
  exact_match_score : ℚ
  cross_column_score : ℚ
deriving DecidableEq

/-- `_calculate_relationship_strength(cooccurrence, column_score, exact_matches,
cross_column_relationships)`.  The cross-column dict enters only through its
size (`len`) and truthiness, so it is modelled by its entry count. -/
def calculate_relationship_strength (cooccurrence : ℕ) (column_score : ℚ)
    (exact_matches : ℕ) (cross_column_count : ℕ) : RelationshipStrength :=
  let cooccurrence_score : ℚ := min ((cooccurrence : ℚ) / 10) 1
  let column_match_score : ℚ := min ((exact_matches : ℚ) / 5) 1
  let cross_column_score : ℚ :=
    if cross_column_count ≠ 0 then min ((cross_column_count : ℚ) / 10) 0.2 else 0
  let overall_score :=
    cooccurrence_score * 0.4 + column_score * 0.3 + column_match_score * 0.2 +
      cross_column_score * 0.1
  let level :=
    if 0.7 ≤ overall_score then "STRONG"
    else if 0.4 ≤ overall_score then "MODERATE"
    else if 0.1 ≤ overall_score then "WEAK"
    else "MINIMAL"
  { overall_score := round3 overall_score
    level := level
    cooccurrence_score := round3 cooccurrence_score
    column_score := round3 column_score
    exact_match_score := round3 column_match_score
    cross_column_score := round3 cross_column_score }

/-! ## The Solr fetch boundary

`requests.get` either raises (network unreachable, timeout, ...) or yields a
response with a status code and a parsed document list; the two scripts handle
that outcome differently.
-/

/-- Outcome of one `requests.get` call against the Solr collaborator. -/
inductive SolrAttempt (α : Type) where
  | unreachable
  | response (status : ℕ) (body : α)
deriving DecidableEq

/-- `search_object_documents` of `analyze_top_columns.py`: the whole call is
wrapped in `try/except`, and `raise_for_status()` turns any 4xx/5xx status into
the same caught exception, so every failure mode degrades to `[]`. -/
def search_object_documents (attempt : SolrAttempt (List SolrDoc)) : List SolrDoc :=
  match attempt with
  | .unreachable => []
  | .response status docs => if 400 ≤ status then [] else docs

/-- `get_relationship_documents` of `analyze_object_relationship_columns.py`:
a non-200 status is checked explicitly and yields `[]`, but there is no
`try/except`, so a raising `requests.get` propagates out of the function. -/
def get_relationship_documents (attempt : SolrAttempt (List SolrDoc)) :
    Except String (List SolrDoc) :=
  match attempt with
  | .unreachable => .error "requests exception propagates"
  | .response status docs => if status ≠ 200 then .ok [] else .ok docs

/-! ## AL (msdyn) mention extraction
(`extract_column_mentions` in `msdyn/analyze_top_columns.py`)
-/

/-- Occurrences of the quoted pattern `'"' + re.escape(column) + '"'`:
non-overlapping literal substring matches. -/
def quotedCountS (column text : String) : ℕ :=
  countSub ('"' :: column.data ++ ['"']) text.data

/-- A match of the pattern `r'\.' + re.escape(column) + r'\b'` at position `p`:
a literal dot, then the column, then a word boundary (no boundary is required
before the dot).  Such matches cannot overlap, so all positions are counted. -/
def dotBoundedAt (w text : List Char) (p : Nat) : Bool :=
  (text.getD p '\x00' == '.')
    && subAt text (p + 1) w.length == w
    && (text.length ≤ p + 1 + w.length || !isWordChar (text.getD (p + 1 + w.length) ' '))

/-- `len(re.findall(r'\.' + re.escape(column) + r'\b', text))`. -/
def dotCountS (column text : String) : ℕ :=
  ((List.range text.data.length).filter (dotBoundedAt column.data text.data)).length

/-- Total AL mention count for one column: the sum of the three (overlapping)
pattern counts of `msdyn/analyze_top_columns.py`, all taken on `text.upper()`. -/
def msdynMentionCount (column text : String) : ℕ :=
  wordOccCountS column (upperS text) + quotedCountS column (upperS text) +
    dotCountS column (upperS text)

/-- `extract_column_mentions(text, columns)` of `msdyn/analyze_top_columns.py`:
per column, the summed count of the three patterns, kept when positive. -/
def msdyn_extract_column_mentions (text : String) (columns : List String) :
    List (String × ℕ) :=
  if text = "" ∨ columns = [] then []
  else columns.filterMap (fun column =>
    let total := msdynMentionCount column text
    if 0 < total then some (column, total) else none)

/-! ## Claim theorems and supporting lemmas -/

lemma round3_nonneg {q : ℚ} (h : 0 ≤ q) : 0 ≤ round3 q := by
  unfold round3
  have h1 : (0 : ℤ) ≤ round (q * 1000) := by
    rw [round_eq]
    exact Int.le_floor.mpr (by push_cast; linarith)
  positivity

lemma round3_le_one {q : ℚ} (h : q ≤ 1) : round3 q ≤ 1 := by
  unfold round3
  rw [div_le_one (by norm_num)]
  have h1 : round (q * 1000) < 1001 := by
    rw [round_eq]
    exact Int.floor_lt.mpr (by push_cast; linarith)
  exact_mod_cast Int.lt_add_one_iff.mp h1

lemma match_score_bounds (object_columns : List (String × List String))
    (object1 object2 : String) :
    0 ≤ (find_column_matches object_columns object1 object2).match_score ∧
      (find_column_matches object_columns object1 object2).match_score ≤ 1 := by
  set c1 := ((lookupAssoc object_columns object1).getD []).toFinset with hc1
  set c2 := ((lookupAssoc object_columns object2).getD []).toFinset with hc2
  by_cases hc : c1 = ∅ ∨ c2 = ∅
  · simp [find_column_matches, ← hc1, ← hc2, hc]
  · push_neg at hc
    obtain ⟨h1, h2⟩ := hc
    have hpos : 0 < c1.card + c2.card := by
      have : 0 < c1.card := Finset.card_pos.mpr (Finset.nonempty_iff_ne_empty.mpr h1)
      omega
    have heq : (find_column_matches object_columns object1 object2).match_score =
        round3 (((c1 ∩ c2).card * 2 : ℚ) / (c1.card + c2.card)) := by
      simp [find_column_matches, ← hc1, ← hc2, h1, h2, hpos]
    rw [heq]
    have hraw0 : (0 : ℚ) ≤ ((c1 ∩ c2).card * 2 : ℚ) / ((c1.card : ℚ) + c2.card) := by positivity
    have hraw1 : ((c1 ∩ c2).card * 2 : ℚ) / ((c1.card : ℚ) + c2.card) ≤ 1 := by
      rw [div_le_one (by exact_mod_cast hpos)]
      have ha : ((c1 ∩ c2).card : ℚ) ≤ c1.card :=
        Nat.cast_le.mpr (Finset.card_le_card Finset.inter_subset_left)
      have hb : ((c1 ∩ c2).card : ℚ) ≤ c2.card :=
        Nat.cast_le.mpr (Finset.card_le_card Finset.inter_subset_right)
      linarith
    exact ⟨round3_nonneg hraw0, round3_le_one hraw1⟩

/-- Claim C8: for every metadata map, object pair, co-occurrence count,
exact-match count and cross-column-pair count, the `overall_score` produced by
`_calculate_relationship_strength` (fed the `match_score` from the column-overlap
computation) lies in `[0, 1]`: each weighted term is bounded by its
coefficient's cap. -/
theorem C8_overall_score_bounds (object_columns : List (String × List String))
    (object1 object2 : String) (cooccurrence exact_matches cross_column_count : ℕ) :
    0 ≤ (calculate_relationship_strength cooccurrence
        ((find_column_matches object_columns object1 object2).match_score)
        exact_matches cross_column_count).overall_score ∧
      (calculate_relationship_strength cooccurrence
        ((find_column_matches object_columns object1 object2).match_score)
        exact_matches cross_column_count).overall_score ≤ 1 := by
  obtain ⟨hms0, hms1⟩ := match_score_bounds object_columns object1 object2
  set ms := (find_column_matches object_columns object1 object2).match_score
  have heq : (calculate_relationship_strength cooccurrence ms exact_matches
      cross_column_count).overall_score =
      round3 (min ((cooccurrence : ℚ) / 10) 1 * 0.4 + ms * 0.3 +
        min ((exact_matches : ℚ) / 5) 1 * 0.2 +
        (if cross_column_count ≠ 0 then min ((cross_column_count : ℚ) / 10) 0.2 else 0) * 0.1) := by
    simp [calculate_relationship_strength]
  rw [heq]
  have ha0 : (0 : ℚ) ≤ min ((cooccurrence : ℚ) / 10) 1 := le_min (by positivity) (by norm_num)
  have ha1 : min ((cooccurrence : ℚ) / 10) 1 ≤ 1 := min_le_right _ _
  have hb0 : (0 : ℚ) ≤ min ((exact_matches : ℚ) / 5) 1 := le_min (by positivity) (by norm_num)
  have hb1 : min ((exact_matches : ℚ) / 5) 1 ≤ 1 := min_le_right _ _
  have hcr0 : (0 : ℚ) ≤ (if cross_column_count ≠ 0 then min ((cross_column_count : ℚ) / 10) 0.2 else 0) := by
    split
    · exact le_min (by positivity) (by norm_num)
    · exact le_refl 0
  have hcr1 : (if cross_column_count ≠ 0 then min ((cross_column_count : ℚ) / 10) 0.2 else 0) ≤ 0.2 := by
    split
    · exact min_le_right _ _
    · norm_num
  constructor
  · exact round3_nonneg (by nlinarith)
  · exact round3_le_one (by nlinarith)

lemma crossTerm_eq (cc : ℕ) :
    (if cc ≠ 0 then min ((cc : ℚ) / 10) 0.2 else 0) = min ((cc : ℚ) / 10) 0.2 := by
  split
  · rfl
  · rename_i h
    push_neg at h
    subst h
    norm_num

/-- Claim C5: the relationship strength is
`overall = 0.4*min(cooccurrence/10,1) + 0.3*match_score + 0.2*min(exact/5,1) +
0.1*min(cross/10,0.2)` (the returned score rounded to 3 decimals), classified
STRONG at `>= 0.7`, MODERATE at `>= 0.4`, WEAK at `>= 0.1`, else MINIMAL; in
particular `cooccurrence=10, match_score=0.5, exact_matches=3, no cross pairs`
gives `overall = 0.67` and level MODERATE. -/
theorem C5_strength_formula :
    (∀ (c em cc : ℕ) (ms : ℚ),
      (calculate_relationship_strength c ms em cc).overall_score =
        round3 (0.4 * min ((c : ℚ) / 10) 1 + 0.3 * ms + 0.2 * min ((em : ℚ) / 5) 1 +
          0.1 * min ((cc : ℚ) / 10) 0.2) ∧
      (calculate_relationship_strength c ms em cc).level =
        (if 0.7 ≤ 0.4 * min ((c : ℚ) / 10) 1 + 0.3 * ms + 0.2 * min ((em : ℚ) / 5) 1 +
              0.1 * min ((cc : ℚ) / 10) 0.2 then "STRONG"
          else if 0.4 ≤ 0.4 * min ((c : ℚ) / 10) 1 + 0.3 * ms + 0.2 * min ((em : ℚ) / 5) 1 +
              0.1 * min ((cc : ℚ) / 10) 0.2 then "MODERATE"
          else if 0.1 ≤ 0.4 * min ((c : ℚ) / 10) 1 + 0.3 * ms + 0.2 * min ((em : ℚ) / 5) 1 +
              0.1 * min ((cc : ℚ) / 10) 0.2 then "WEAK"
          else "MINIMAL")) ∧
    (calculate_relationship_strength 10 0.5 3 0).overall_score = 0.67 ∧
    (calculate_relationship_strength 10 0.5 3 0).level = "MODERATE" := by
  have key : ∀ (c em cc : ℕ) (ms : ℚ),
      min ((c : ℚ) / 10) 1 * 0.4 + ms * 0.3 + min ((em : ℚ) / 5) 1 * 0.2 +
        (if cc ≠ 0 then min ((cc : ℚ) / 10) 0.2 else 0) * 0.1 =
      0.4 * min ((c : ℚ) / 10) 1 + 0.3 * ms + 0.2 * min ((em : ℚ) / 5) 1 +
        0.1 * min ((cc : ℚ) / 10) 0.2 := by
    intro c em cc ms
    rw [crossTerm_eq]
    ring
  refine ⟨fun c em cc ms => ?_, ?_, ?_⟩
  · simp only [calculate_relationship_strength, key]
    exact ⟨trivial, trivial⟩
  · simp only [calculate_relationship_strength]
    norm_num [round3, round_eq]
  · simp only [calculate_relationship_strength]
    norm_num

lemma round3_zero : round3 0 = 0 := by norm_num [round3, round_eq]

lemma find_column_matches_score_eq (object_columns : List (String × List String))
    (object1 object2 : String) :
    (find_column_matches object_columns object1 object2).match_score =
      round3 ((2 * ((((lookupAssoc object_columns object1).getD []).toFinset ∩
          ((lookupAssoc object_columns object2).getD []).toFinset).card : ℚ)) /
        ((((lookupAssoc object_columns object1).getD []).toFinset.card : ℚ) +
          (((lookupAssoc object_columns object2).getD []).toFinset.card : ℚ))) := by
  set c1 := ((lookupAssoc object_columns object1).getD []).toFinset with hc1
  set c2 := ((lookupAssoc object_columns object2).getD []).toFinset with hc2
  by_cases hc : c1 = ∅ ∨ c2 = ∅
  · have he1 : (find_column_matches object_columns object1 object2).match_score = 0 := by
      simp [find_column_matches, ← hc1, ← hc2, hc]
    have hnum : ((c1 ∩ c2).card : ℚ) = 0 := by
      rcases hc with h | h
      · simp [h]
      · simp [h]
    rw [he1, hnum]
    norm_num [round3_zero]
  · push_neg at hc
    obtain ⟨h1, h2⟩ := hc
    have hpos : 0 < c1.card + c2.card := by
      have : 0 < c1.card := Finset.card_pos.mpr (Finset.nonempty_iff_ne_empty.mpr h1)
      omega
    have he1 : (find_column_matches object_columns object1 object2).match_score =
        round3 (((c1 ∩ c2).card * 2 : ℚ) / (c1.card + c2.card)) := by
      simp [find_column_matches, ← hc1, ← hc2, h1, h2, hpos]
    rw [he1]
    congr 1
    ring

lemma find_column_matches_score_symm (object_columns : List (String × List String))
    (object1 object2 : String) :
    (find_column_matches object_columns object1 object2).match_score =
      (find_column_matches object_columns object2 object1).match_score := by
  rw [find_column_matches_score_eq, find_column_matches_score_eq, Finset.inter_comm]
  congr 2
  ring

/-- Claim C7 (amended): `match_score` equals
`2*|columns(A) /\ columns(B)| / (|columns(A)|+|columns(B)|)` **rounded to three
decimal places** (`round(..., 3)` in the source), with exact string-equality
intersection, value `0` when the denominator is `0` (the `x/0 = 0` convention of
the rational model coincides with the early empty-set return), and it is
symmetric in the two objects. -/
theorem C7_match_score_rounded_symmetric (object_columns : List (String × List String))
    (object1 object2 : String) :
    (find_column_matches object_columns object1 object2).match_score =
      round3 ((2 * ((((lookupAssoc object_columns object1).getD []).toFinset ∩
          ((lookupAssoc object_columns object2).getD []).toFinset).card : ℚ)) /
        ((((lookupAssoc object_columns object1).getD []).toFinset.card : ℚ) +
          (((lookupAssoc object_columns object2).getD []).toFinset.card : ℚ))) ∧
    (find_column_matches object_columns object1 object2).match_score =
      (find_column_matches object_columns object2 object1).match_score :=
  ⟨find_column_matches_score_eq object_columns object1 object2,
    find_column_matches_score_symm object_columns object1 object2⟩

/-- Claim C7, counterexample to the unrounded formula: for column sets of sizes
3 and 4 sharing exactly one column the source returns `round(2/7, 3) = 0.286`,
which differs from the claimed exact value `2*1/(3+4) = 2/7`. -/
theorem C7_counterexample :
    (find_column_matches [("T1", ["A", "B", "C"]), ("T2", ["A", "D", "E", "F"])]
        "T1" "T2").object1_columns = 3 ∧
    (find_column_matches [("T1", ["A", "B", "C"]), ("T2", ["A", "D", "E", "F"])]
        "T1" "T2").object2_columns = 4 ∧
    (find_column_matches [("T1", ["A", "B", "C"]), ("T2", ["A", "D", "E", "F"])]
        "T1" "T2").exact_matches.card = 1 ∧
    (find_column_matches [("T1", ["A", "B", "C"]), ("T2", ["A", "D", "E", "F"])]
        "T1" "T2").match_score = 286 / 1000 ∧
    (286 / 1000 : ℚ) ≠ 2 * 1 / (3 + 4) := by
  refine ⟨by decide, by decide, by decide, ?_, by norm_num⟩
  rw [find_column_matches_score_eq]
  have e1 : (lookupAssoc [("T1", ["A", "B", "C"]), ("T2", ["A", "D", "E", "F"])]
      "T1").getD [] = ["A", "B", "C"] := by decide
  have e2 : (lookupAssoc [("T1", ["A", "B", "C"]), ("T2", ["A", "D", "E", "F"])]
      "T2").getD [] = ["A", "D", "E", "F"] := by decide
  rw [e1, e2]
  have h1 : ((["A", "B", "C"] : List String).toFinset ∩
      (["A", "D", "E", "F"] : List String).toFinset).card = 1 := by decide
  have h2 : (["A", "B", "C"] : List String).toFinset.card = 3 := by decide
  have h3 : (["A", "D", "E", "F"] : List String).toFinset.card = 4 := by decide
  rw [h1, h2, h3]
  norm_num [round3, round_eq]

lemma zoneCount_empty (column : String) : zoneCount column "" = 0 := rfl

lemma zoneIteBefore (column text : String) (prox : ℝ) (a1 : ℝ) (a2 : ℕ)
    (a3 a4 a5 a6 : ℝ) (a7 : Option ℕ) (a8 : ℕ) :
    (if text ≠ "" ∧ 0 < zoneCount column text then
      ColumnData.mk (a1 + prox * zoneCount column text * 1) (a2 + zoneCount column text)
        (a3 + prox * zoneCount column text * 1) a4 a5 a6 a7 a8
     else ColumnData.mk a1 a2 a3 a4 a5 a6 a7 a8) =
    ColumnData.mk (a1 + prox * zoneCount column text * 1) (a2 + zoneCount column text)
      (a3 + prox * zoneCount column text * 1) a4 a5 a6 a7 a8 := by
  split_ifs with h
  · rfl
  · have hk : zoneCount column text = 0 := by
      rcases not_and_or.mp h with h' | h'
      · rw [not_not.mp h']
        exact zoneCount_empty column
      · omega
    simp [hk]

lemma zoneIteLine (column text : String) (prox : ℝ) (a1 : ℝ) (a2 : ℕ)
    (a3 a4 a5 a6 : ℝ) (a7 : Option ℕ) (a8 : ℕ) :
    (if text ≠ "" ∧ 0 < zoneCount column text then
      ColumnData.mk (a1 + prox * zoneCount column text * 3) (a2 + zoneCount column text)
        a3 (a4 + prox * zoneCount column text * 3) a5 a6 a7 a8
     else ColumnData.mk a1 a2 a3 a4 a5 a6 a7 a8) =
    ColumnData.mk (a1 + prox * zoneCount column text * 3) (a2 + zoneCount column text)
      a3 (a4 + prox * zoneCount column text * 3) a5 a6 a7 a8 := by
  split_ifs with h
  · rfl
  · have hk : zoneCount column text = 0 := by
      rcases not_and_or.mp h with h' | h'
      · rw [not_not.mp h']
        exact zoneCount_empty column
      · omega
    simp [hk]

lemma zoneIteAfter (column text : String) (prox : ℝ) (a1 : ℝ) (a2 : ℕ)
    (a3 a4 a5 a6 : ℝ) (a7 : Option ℕ) (a8 : ℕ) :
    (if text ≠ "" ∧ 0 < zoneCount column text then
      ColumnData.mk (a1 + prox * zoneCount column text * 3) (a2 + zoneCount column text)
        a3 a4 (a5 + prox * zoneCount column text * 3) a6 a7 a8
     else ColumnData.mk a1 a2 a3 a4 a5 a6 a7 a8) =
    ColumnData.mk (a1 + prox * zoneCount column text * 3) (a2 + zoneCount column text)
      a3 a4 (a5 + prox * zoneCount column text * 3) a6 a7 a8 := by
  split_ifs with h
  · rfl
  · have hk : zoneCount column text = 0 := by
      rcases not_and_or.mp h with h' | h'
      · rw [not_not.mp h']
        exact zoneCount_empty column
      · omega
    simp [hk]

lemma columnDocUpdate_eq (target column : String) (doc : SolrDoc) (cd : ColumnData) (md : ℕ)
    (hall : docAllText doc ≠ "")
    (hobj : wordOccS target (upperS (docAllText doc)) ≠ [])
    (hcol : wordOccS column (upperS (docAllText doc)) ≠ [])
    (hmd : minPairDist (wordOccS target (upperS (docAllText doc)))
      (wordOccS column (upperS (docAllText doc))) = some md) :
    columnDocUpdate target column doc cd =
      { total_weighted_score := cd.total_weighted_score + proximityScore md *
          ((zoneCount column (beforeText doc) : ℝ) * 1 +
           (zoneCount column doc.line_text : ℝ) * 3 +
           (zoneCount column (afterText doc) : ℝ) * 3)
        total_mentions := cd.total_mentions + (zoneCount column (beforeText doc) +
          zoneCount column doc.line_text + zoneCount column (afterText doc))
        context_before_score := cd.context_before_score +
          proximityScore md * (zoneCount column (beforeText doc) : ℝ) * 1
        line_text_score := cd.line_text_score +
          proximityScore md * (zoneCount column doc.line_text : ℝ) * 3
        context_after_score := cd.context_after_score +
          proximityScore md * (zoneCount column (afterText doc) : ℝ) * 3
        best_proximity := max cd.best_proximity (proximityScore md)
        min_distance := some (match cd.min_distance with
          | none => md
          | some v => min v md)
        documents_found_in := cd.documents_found_in + 1 } := by
  simp only [columnDocUpdate]
  rw [if_neg hall, if_neg hobj, if_neg hcol]
  simp only [hmd]
  rw [zoneIteBefore]
  dsimp only
  rw [zoneIteLine]
  dsimp only
  rw [zoneIteAfter]
  simp only [ColumnData.mk.injEq]
  repeat' apply And.intro
  all_goals first
    | rfl
    | trivial
    | omega
    | ring

/-- Claim C1: for every window in which both the anchor and the candidate occur
(word-boundary, case-insensitive matching over the concatenated buffer), the
proximity used by the update is `exp(-min_distance/100)`; the decay is `1.0`
exactly at distance `0` and strictly decreasing in the distance. -/
theorem C1_proximity_decay (target column : String) (doc : SolrDoc) (cd : ColumnData) (md : ℕ)
    (hall : docAllText doc ≠ "")
    (hobj : wordOccS target (upperS (docAllText doc)) ≠ [])
    (hcol : wordOccS column (upperS (docAllText doc)) ≠ [])
    (hmd : minPairDist (wordOccS target (upperS (docAllText doc)))
      (wordOccS column (upperS (docAllText doc))) = some md) :
    (columnDocUpdate target column doc cd).best_proximity =
      max cd.best_proximity (Real.exp (-(md : ℝ) / 100)) ∧
    proximityScore 0 = 1 ∧
    (∀ d1 d2 : ℕ, d1 < d2 → proximityScore d2 < proximityScore d1) := by
  refine ⟨?_, ?_, ?_⟩
  · rw [columnDocUpdate_eq target column doc cd md hall hobj hcol hmd]
    rfl
  · unfold proximityScore
    norm_num
  · intro d1 d2 h
    unfold proximityScore
    apply Real.exp_lt_exp.mpr
    have : (d1 : ℝ) < d2 := Nat.cast_lt.mpr h
    linarith

/-- Witness for C1 at the window `"SELECT SALARY FROM EMPLOYEES"` with anchor
`EMPLOYEES` and candidate `SALARY` (minimum distance 12). -/
theorem C1_proximity_decay_witness :
    docAllText ⟨[], "SELECT SALARY FROM EMPLOYEES", []⟩ ≠ "" ∧
    wordOccS "EMPLOYEES" (upperS (docAllText ⟨[], "SELECT SALARY FROM EMPLOYEES", []⟩)) ≠ [] ∧
    wordOccS "SALARY" (upperS (docAllText ⟨[], "SELECT SALARY FROM EMPLOYEES", []⟩)) ≠ [] ∧
    minPairDist (wordOccS "EMPLOYEES" (upperS (docAllText ⟨[], "SELECT SALARY FROM EMPLOYEES", []⟩)))
      (wordOccS "SALARY" (upperS (docAllText ⟨[], "SELECT SALARY FROM EMPLOYEES", []⟩))) = some 12 ∧
    (columnDocUpdate "EMPLOYEES" "SALARY" ⟨[], "SELECT SALARY FROM EMPLOYEES", []⟩
        initColumnData).best_proximity =
      max initColumnData.best_proximity (Real.exp (-(12 : ℝ) / 100)) :=
  ⟨by decide, by decide, by decide, by decide,
    (C1_proximity_decay "EMPLOYEES" "SALARY" ⟨[], "SELECT SALARY FROM EMPLOYEES", []⟩
      initColumnData 12 (by decide) (by decide) (by decide) (by decide)).1⟩

/-- Claim C2: a window in which both anchor and candidate occur adds
`proximity * k * weight(zone)` per zone (weights: before 1, line 3, after 3,
with `k` the word-boundary count in the zone's own text) to that zone's
sub-score and to `total_weighted_score`, and adds `k` to `total_mentions`; for a
candidate occurring once per zone the window's total contribution is
`proximity * (1 + 3 + 3)`. -/
theorem C2_zone_weighted_accumulation (target column : String) (doc : SolrDoc)
    (cd : ColumnData) (md : ℕ)
    (hall : docAllText doc ≠ "")
    (hobj : wordOccS target (upperS (docAllText doc)) ≠ [])
    (hcol : wordOccS column (upperS (docAllText doc)) ≠ [])
    (hmd : minPairDist (wordOccS target (upperS (docAllText doc)))
      (wordOccS column (upperS (docAllText doc))) = some md) :
    (columnDocUpdate target column doc cd).total_weighted_score =
      cd.total_weighted_score + proximityScore md *
        ((zoneCount column (beforeText doc) : ℝ) * 1 +
         (zoneCount column doc.line_text : ℝ) * 3 +
         (zoneCount column (afterText doc) : ℝ) * 3) ∧
    (columnDocUpdate target column doc cd).total_mentions =
      cd.total_mentions + (zoneCount column (beforeText doc) +
        zoneCount column doc.line_text + zoneCount column (afterText doc)) ∧
    (columnDocUpdate target column doc cd).context_before_score =
      cd.context_before_score + proximityScore md * (zoneCount column (beforeText doc) : ℝ) * 1 ∧
    (columnDocUpdate target column doc cd).line_text_score =
      cd.line_text_score + proximityScore md * (zoneCount column doc.line_text : ℝ) * 3 ∧
    (columnDocUpdate target column doc cd).context_after_score =
      cd.context_after_score + proximityScore md * (zoneCount column (afterText doc) : ℝ) * 3 ∧
    (zoneCount column (beforeText doc) = 1 → zoneCount column doc.line_text = 1 →
      zoneCount column (afterText doc) = 1 →
      (columnDocUpdate target column doc cd).total_weighted_score =
        cd.total_weighted_score + proximityScore md * (1 + 3 + 3)) := by
  rw [columnDocUpdate_eq target column doc cd md hall hobj hcol hmd]
  refine ⟨rfl, rfl, rfl, rfl, rfl, ?_⟩
  intro h1 h2 h3
  rw [h1, h2, h3]
  norm_num

/-- Witness for C2 on a window whose three zones each mention `SALARY` once. -/
theorem C2_zone_weighted_accumulation_witness :
    docAllText ⟨["ID SALARY"], "SELECT SALARY FROM EMPLOYEES", ["WHERE SALARY > 100"]⟩ ≠ "" ∧
    minPairDist
      (wordOccS "EMPLOYEES" (upperS (docAllText
        ⟨["ID SALARY"], "SELECT SALARY FROM EMPLOYEES", ["WHERE SALARY > 100"]⟩)))
      (wordOccS "SALARY" (upperS (docAllText
        ⟨["ID SALARY"], "SELECT SALARY FROM EMPLOYEES", ["WHERE SALARY > 100"]⟩))) = some 12 ∧
    zoneCount "SALARY" (beforeText
      ⟨["ID SALARY"], "SELECT SALARY FROM EMPLOYEES", ["WHERE SALARY > 100"]⟩) = 1 ∧
    zoneCount "SALARY" "SELECT SALARY FROM EMPLOYEES" = 1 ∧
    zoneCount "SALARY" (afterText
      ⟨["ID SALARY"], "SELECT SALARY FROM EMPLOYEES", ["WHERE SALARY > 100"]⟩) = 1 ∧
    (columnDocUpdate "EMPLOYEES" "SALARY"
        ⟨["ID SALARY"], "SELECT SALARY FROM EMPLOYEES", ["WHERE SALARY > 100"]⟩
        initColumnData).total_weighted_score =
      initColumnData.total_weighted_score + proximityScore 12 * (1 + 3 + 3) :=
  ⟨by decide, by decide, by decide, by decide, by decide,
    (C2_zone_weighted_accumulation "EMPLOYEES" "SALARY"
        ⟨["ID SALARY"], "SELECT SALARY FROM EMPLOYEES", ["WHERE SALARY > 100"]⟩
        initColumnData 12 (by decide) (by decide) (by decide) (by decide)).2.2.2.2.2
      (by decide) (by decide) (by decide)⟩

lemma exp_neg_twelve_hundredths_bounds :
    0.8868 ≤ Real.exp (-(12 : ℝ) / 100) ∧ Real.exp (-(12 : ℝ) / 100) ≤ 0.8870 := by
  have harg : (-(12 : ℝ) / 100) = -(3 / 25) := by norm_num
  rw [harg]
  have hx : |(-(3 : ℝ) / 25)| ≤ 1 := by
    rw [abs_of_nonpos (by norm_num)]
    norm_num
  have h := @Real.exp_bound (-(3 : ℝ) / 25) hx 4 (by norm_num)
  rw [Finset.sum_range_succ, Finset.sum_range_succ, Finset.sum_range_succ,
    Finset.sum_range_succ, Finset.sum_range_zero] at h
  norm_num [Nat.factorial] at h
  have hB : |(3 / 25 : ℝ)| ^ 4 * (5 / 96) ≤ 108 / 10000000 := by
    rw [abs_of_nonneg (by norm_num)]
    norm_num
  have h2 := abs_le.mp (h.trans hB)
  constructor
  · have := h2.1
    norm_num at this ⊢
    linarith
  · have := h2.2
    norm_num at this ⊢
    linarith

/-- Claim C6 (amended): in the window with `line_text = "SELECT SALARY FROM
EMPLOYEES"` and empty context, the anchor `EMPLOYEES` occurs at character
offset 19 (not 23) and `SALARY` at offset 7, so `min_distance = 12` (not 16),
`proximity = exp(-0.12) = 0.8869...`, and the weighted score with line weight 3
is `3*exp(-0.12) = 2.661...`. -/
theorem C6_scenario_corrected :
    wordOccS "EMPLOYEES" (upperS (docAllText ⟨[], "SELECT SALARY FROM EMPLOYEES", []⟩)) = [19] ∧
    wordOccS "SALARY" (upperS (docAllText ⟨[], "SELECT SALARY FROM EMPLOYEES", []⟩)) = [7] ∧
    minPairDist (wordOccS "EMPLOYEES" (upperS (docAllText ⟨[], "SELECT SALARY FROM EMPLOYEES", []⟩)))
      (wordOccS "SALARY" (upperS (docAllText ⟨[], "SELECT SALARY FROM EMPLOYEES", []⟩))) = some 12 ∧
    (columnDocUpdate "EMPLOYEES" "SALARY" ⟨[], "SELECT SALARY FROM EMPLOYEES", []⟩
        initColumnData).best_proximity = Real.exp (-(12 : ℝ) / 100) ∧
    (columnDocUpdate "EMPLOYEES" "SALARY" ⟨[], "SELECT SALARY FROM EMPLOYEES", []⟩
        initColumnData).total_weighted_score = 3 * Real.exp (-(12 : ℝ) / 100) ∧
    |Real.exp (-(12 : ℝ) / 100) - 0.8869| < 0.001 ∧
    |3 * Real.exp (-(12 : ℝ) / 100) - 2.661| < 0.001 := by
  have hupd := columnDocUpdate_eq "EMPLOYEES" "SALARY"
    ⟨[], "SELECT SALARY FROM EMPLOYEES", []⟩ initColumnData 12
    (by decide) (by decide) (by decide) (by decide)
  have hkb : zoneCount "SALARY" (beforeText ⟨[], "SELECT SALARY FROM EMPLOYEES", []⟩) = 0 := by decide
  have hkl : zoneCount "SALARY" ("SELECT SALARY FROM EMPLOYEES" : String) = 1 := by decide
  have hka : zoneCount "SALARY" (afterText ⟨[], "SELECT SALARY FROM EMPLOYEES", []⟩) = 0 := by decide
  obtain ⟨hlo, hhi⟩ := exp_neg_twelve_hundredths_bounds
  refine ⟨by decide, by decide, by decide, ?_, ?_, ?_, ?_⟩
  · rw [hupd]
    show max initColumnData.best_proximity (proximityScore 12) = _
    rw [show initColumnData.best_proximity = 0 from rfl]
    unfold proximityScore
    rw [max_eq_right (le_of_lt (Real.exp_pos _))]
    norm_num
  · rw [hupd]
    show initColumnData.total_weighted_score + proximityScore 12 * _ = _
    rw [show initColumnData.total_weighted_score = (0 : ℝ) from rfl, hkb, hkl, hka]
    unfold proximityScore
    ring_nf
  · rw [abs_lt]
    constructor <;> linarith
  · rw [abs_lt]
    constructor <;> linarith

/-- Claim C6, counterexample: in that window the anchor offset list is not
`[23]` and the minimum distance is not 16. -/
theorem C6_counterexample :
    wordOccS "EMPLOYEES" (upperS (docAllText ⟨[], "SELECT SALARY FROM EMPLOYEES", []⟩)) ≠ [23] ∧
    minPairDist (wordOccS "EMPLOYEES" (upperS (docAllText ⟨[], "SELECT SALARY FROM EMPLOYEES", []⟩)))
      (wordOccS "SALARY" (upperS (docAllText ⟨[], "SELECT SALARY FROM EMPLOYEES", []⟩))) ≠ some 16 :=
  ⟨by decide, by decide⟩

/-- Claim C3 (amended): `analyze_object_columns` returns the not-found error
exactly when the object is absent from the metadata; when the object is known
but the document fetch returns no documents it returns the
`No documents found` **error**, not an empty ranking. -/
theorem C3_error_conditions (object_columns : List (String × List String))
    (fetch : String → List SolrDoc) (object_name : String) :
    (lookupAssoc object_columns object_name = none →
      analyze_object_columns object_columns fetch object_name =
        .error ("Object " ++ object_name ++ " not found in metadata")) ∧
    (∀ columns, lookupAssoc object_columns object_name = some columns →
      fetch object_name = [] →
      analyze_object_columns object_columns fetch object_name =
        .error ("No documents found for " ++ object_name ++ " in Solr")) := by
  constructor
  · intro h
    simp [analyze_object_columns, h]
  · intro columns h hf
    simp [analyze_object_columns, h, hf]

/-- Witness for C3 at a one-object metadata map and an empty fetch. -/
theorem C3_error_conditions_witness :
    lookupAssoc [("EMP", ["A"])] "X" = none ∧
    analyze_object_columns [("EMP", ["A"])] (fun _ => []) "X" =
      .error "Object X not found in metadata" ∧
    lookupAssoc [("EMP", ["A"])] "EMP" = some ["A"] ∧
    analyze_object_columns [("EMP", ["A"])] (fun _ => []) "EMP" =
      .error "No documents found for EMP in Solr" :=
  ⟨by decide,
    (C3_error_conditions [("EMP", ["A"])] (fun _ => []) "X").1 (by decide),
    by decide,
    (C3_error_conditions [("EMP", ["A"])] (fun _ => []) "EMP").2 ["A"] (by decide) rfl⟩

/-- Claim C3, counterexample: for a known object whose fetch yields no
documents the result is an error dict, refuting the claimed empty ranking. -/
theorem C3_counterexample :
    lookupAssoc [("EMP", ["A"])] "EMP" = some ["A"] ∧
    analyze_object_columns [("EMP", ["A"])] (fun _ => []) "EMP" =
      .error "No documents found for EMP in Solr" :=
  ⟨by decide, by decide⟩

lemma mem_insertDesc {x y : String × ℕ} :
    ∀ {l : List (String × ℕ)}, y ∈ insertDesc x l → y = x ∨ y ∈ l := by
  intro l
  induction l with
  | nil =>
    intro h
    simp [insertDesc] at h
    exact Or.inl h
  | cons z zs ih =>
    intro h
    rw [insertDesc] at h
    split_ifs at h with hc
    · rcases List.mem_cons.mp h with h' | h'
      · exact Or.inr (List.mem_cons.mpr (Or.inl h'))
      · rcases ih h' with h'' | h''
        · exact Or.inl h''
        · exact Or.inr (List.mem_cons.mpr (Or.inr h''))
    · rcases List.mem_cons.mp h with h' | h'
      · exact Or.inl h'
      · exact Or.inr h'

lemma pairwise_insertDesc (x : String × ℕ) (l : List (String × ℕ))
    (h : List.Pairwise (fun a b => b.2 ≤ a.2) l) :
    List.Pairwise (fun a b => b.2 ≤ a.2) (insertDesc x l) := by
  induction l with
  | nil => simp [insertDesc]
  | cons y ys ih =>
    obtain ⟨hy, hys⟩ := List.pairwise_cons.mp h
    rw [insertDesc]
    split_ifs with hc
    · refine List.pairwise_cons.mpr ⟨?_, ih hys⟩
      intro z hz
      rcases mem_insertDesc hz with h' | h'
      · rw [h']
        exact hc
      · exact hy z h'
    · refine List.pairwise_cons.mpr ⟨?_, h⟩
      intro z hz
      rcases List.mem_cons.mp hz with h' | h'
      · rw [h']
        exact le_of_not_le hc
      · exact le_trans (hy z h') (le_of_not_le hc)

lemma pairwise_foldl_insertDesc (l acc : List (String × ℕ))
    (h : List.Pairwise (fun a b => b.2 ≤ a.2) acc) :
    List.Pairwise (fun a b => b.2 ≤ a.2)
      (l.foldl (fun acc x => insertDesc x acc) acc) := by
  induction l generalizing acc with
  | nil => exact h
  | cons x xs ih => exact ih _ (pairwise_insertDesc x acc h)

lemma pairwise_sortByScoreDesc (l : List (String × ℕ)) :
    List.Pairwise (fun a b => b.2 ≤ a.2) (sortByScoreDesc l) :=
  pairwise_foldl_insertDesc l [] List.Pairwise.nil

lemma buildEntries_map_score (details : List (String × MentionDetail)) :
    ∀ (rank : ℕ) (l : List (String × ℕ)),
      (buildEntries details rank l).map TopColumnEntry.weighted_score = l.map Prod.snd := by
  intro rank l
  induction l generalizing rank with
  | nil => rfl
  | cons p ps ih =>
    cases p
    simp [buildEntries, ih]

lemma buildEntries_length (details : List (String × MentionDetail)) (rank : ℕ)
    (l : List (String × ℕ)) : (buildEntries details rank l).length = l.length := by
  have := buildEntries_map_score details rank l
  have h1 := congrArg List.length this
  simpa using h1

/-- Claim C4 (amended): the ranking is sorted by `total_weighted_score`
descending only (a stable sort, so ties keep first-mention insertion order),
truncated to the top 3; the ranking is a pure function of its inputs, so
re-running it yields identical output. -/
theorem C4_ranking_sorted_truncated (columns : List String) (docs : List SolrDoc) :
    List.Pairwise (fun a b => b.weighted_score ≤ a.weighted_score)
      (computeTopColumns columns docs) ∧
    (computeTopColumns columns docs).length ≤ 3 ∧
    computeTopColumns columns docs = computeTopColumns columns docs := by
  refine ⟨?_, ?_, rfl⟩
  · have h1 := pairwise_sortByScoreDesc (computeAccum columns docs).weighted_scores
    have h2 := List.Pairwise.sublist (List.take_sublist 3 _) h1
    have h3 : List.Pairwise (fun a b : ℕ => b ≤ a)
        (((sortByScoreDesc (computeAccum columns docs).weighted_scores).take 3).map Prod.snd) :=
      List.pairwise_map.mpr h2
    have h4 := buildEntries_map_score (computeAccum columns docs).mention_details 1
      ((sortByScoreDesc (computeAccum columns docs).weighted_scores).take 3)
    rw [← h4] at h3
    exact List.pairwise_map.mp h3
  · rw [computeTopColumns, buildEntries_length]
    exact List.length_take_le 3 _

/-- Claim C4, counterexample to the claimed tie-breaks: with columns
`["B", "A"]` both scoring 3 with 1 mention each in the same window, the output
order is `B` before `A` (insertion order), not the claimed
column-name-ascending order `A` before `B`. -/
theorem C4_counterexample :
    (computeTopColumns ["B", "A"] [⟨[], "A B", []⟩]).map TopColumnEntry.column_name =
      ["B", "A"] ∧
    (computeTopColumns ["B", "A"] [⟨[], "A B", []⟩]).map TopColumnEntry.weighted_score =
      [3, 3] ∧
    (computeTopColumns ["B", "A"] [⟨[], "A B", []⟩]).map TopColumnEntry.total_raw_mentions =
      [1, 1] ∧
    (["B", "A"] : List String) ≠ ["A", "B"] :=
  ⟨by decide, by decide, by decide, by decide⟩

/-- Claim C9, counterexample: `get_relationship_documents` has no
`try/except`, so an unreachable collaborator propagates the exception instead
of degrading to zero results. -/
theorem C9_counterexample :
    get_relationship_documents SolrAttempt.unreachable =
      Except.error "requests exception propagates" ∧
    (Except.error "requests exception propagates" : Except String (List SolrDoc)) ≠
      Except.ok [] :=
  ⟨rfl, fun h => Except.noConfusion h⟩

/-- Claim C9 (amended): `search_object_documents` never fails (unreachable
collaborator and non-success statuses both degrade to `[]`, and an empty result
list is returned as-is, not as an error); `get_relationship_documents` degrades
to zero results on a non-success status but propagates the exception when the
collaborator is unreachable. -/
theorem C9_fetch_degradation :
    (∀ docs : List SolrDoc, search_object_documents (.response 200 docs) = docs) ∧
    search_object_documents .unreachable = [] ∧
    (∀ (status : ℕ) (docs : List SolrDoc), 400 ≤ status →
      search_object_documents (.response status docs) = []) ∧
    (∀ (status : ℕ) (docs : List SolrDoc), status ≠ 200 →
      get_relationship_documents (.response status docs) = .ok []) ∧
    (∀ docs : List SolrDoc, get_relationship_documents (.response 200 docs) = .ok docs) ∧
    get_relationship_documents .unreachable = .error "requests exception propagates" := by
  refine ⟨?_, rfl, ?_, ?_, ?_, rfl⟩
  · intro docs
    simp [search_object_documents]
  · intro status docs h
    simp [search_object_documents, h]
  · intro status docs h
    simp [get_relationship_documents, h]
  · intro docs
    simp [get_relationship_documents]

/-- Witness for C9 at status 500. -/
theorem C9_fetch_degradation_witness :
    (400 ≤ 500) ∧
    search_object_documents (.response 500 [⟨[], "X", []⟩]) = [] ∧
    (500 ≠ 200) ∧
    get_relationship_documents (.response 500 [⟨[], "X", []⟩]) = .ok [] :=
  ⟨by decide,
    C9_fetch_degradation.2.2.1 500 [⟨[], "X", []⟩] (by decide),
    by decide,
    C9_fetch_degradation.2.2.2.1 500 [⟨[], "X", []⟩] (by decide)⟩

/-- Claim C10: the AL mention count sums three overlapping pattern counts, so
the text `"SALARY"` (one quoted occurrence of the column) yields a mention
count of 2 - the word-boundary pattern and the quoted pattern both match the
single textual occurrence. -/
theorem C10_al_mention_double_count :
    msdynMentionCount "SALARY" "\"SALARY\"" =
      wordOccCountS "SALARY" (upperS "\"SALARY\"") +
        quotedCountS "SALARY" (upperS "\"SALARY\"") +
        dotCountS "SALARY" (upperS "\"SALARY\"") ∧
    wordOccCountS "SALARY" (upperS "\"SALARY\"") = 1 ∧
    quotedCountS "SALARY" (upperS "\"SALARY\"") = 1 ∧
    dotCountS "SALARY" (upperS "\"SALARY\"") = 0 ∧
    msdyn_extract_column_mentions "\"SALARY\"" ["SALARY"] = [("SALARY", 2)] ∧
    countSub "SALARY".data "\"SALARY\"".data = 1 ∧
    countSub "SALARY".data "\"SALARY\"".data < msdynMentionCount "SALARY" "\"SALARY\"" :=
  ⟨rfl, by decide, by decide, by decide, by decide, by decide, by decide⟩

